import Mathlib

/-!
Verification of the snaptoy-app client core: a shallow embedding of the
credit-reconciliation reducer, the photo-transform hook, the auth session
reducer, the error-message mapper and the HTTP client 401-refresh
interceptor, together with theorems settling the specified properties.

Sources embedded:
- src/services/api/index.ts (ApiService: interceptors, token management,
  signInWithApple, refreshToken, signOut, handleApiError)
- the credit context module (creditReducer, refreshBalance, CreditProvider)
- the auth context module (authReducer, AuthProvider.signOut)
- the usePhotoTransform hook (checkCredits, transformPhoto)
- src/types/api.ts (response shapes) and the API_ERROR_CODES constants.
-/

/-! ## JavaScript numeric semantics

JavaScript numbers used by the credit reducer are either an integer value
or NaN.  Adding a missing object field (undefined) to a number yields NaN;
Math.max(0, NaN) is NaN.  Non-integer floats never arise in the modelled
paths, so the value carrier is Int. -/

/-- A JavaScript number as it flows through the credit reducer: an integer
value or NaN. -/
inductive JNum where
  | val (n : Int)
  | nan
deriving DecidableEq

/-- Model of JavaScript subtraction by one: NaN is absorbing. -/
def jsSub1 : JNum → JNum
  | JNum.val n => JNum.val (n - 1)
  | JNum.nan => JNum.nan

/-- Model of JavaScript Math.max(0, x): Math.max with a NaN argument returns NaN. -/
def jsMax0 : JNum → JNum
  | JNum.val n => JNum.val (max 0 n)
  | JNum.nan => JNum.nan

/-- Model of JavaScript x + f where f is an optional numeric field: adding
undefined (a missing field) to a number yields NaN. -/
def jsAddOpt : JNum → Option JNum → JNum
  | _, none => JNum.nan
  | JNum.nan, some _ => JNum.nan
  | JNum.val _, some JNum.nan => JNum.nan
  | JNum.val a, some (JNum.val b) => JNum.val (a + b)

/-- Model of the JavaScript comparison x >= 1 used by checkCredits: any
comparison with NaN is false. -/
def jsGe1 : JNum → Bool
  | JNum.val n => decide (1 ≤ n)
  | JNum.nan => false

/-- A JavaScript number is a nonnegative integer (the CreditState invariant
claimed by the spec). -/
def jsNonneg : JNum → Bool
  | JNum.val n => decide (0 ≤ n)
  | JNum.nan => false

/-- Model of the JavaScript expression m || d for an optional string m:
undefined and the empty string are falsy, so both fall back to d. -/
def jsOr : Option String → String → String
  | none, d => d
  | some s, d => if s = "" then d else s

/-! ## API types (src/types/api.ts) -/

/-- UserResponse and AuthResponse, reduced to the fields the embedded code
reads: signInWithApple and refreshToken read only data.sessionToken, and the
auth provider forwards user and sessionToken. The user is kept opaque. -/
structure AuthResponse where
  user : String
  sessionToken : String
deriving DecidableEq

/-- Error body of the uniform response envelope (ApiResponse.error): a
message and a machine-readable code, each possibly absent at runtime since
handleApiError receives untyped values. -/
structure ErrorBody where
  message : Option String
  code : Option String
deriving DecidableEq

/-- The uniform response envelope ApiResponse, with data specialised to the
auth payload consumed by signInWithApple and refreshToken. -/
structure Envelope where
  success : Bool
  data : Option AuthResponse
  error : Option ErrorBody
deriving DecidableEq

/-- CreditBalanceResponse, reduced to the two fields refreshBalance reads. -/
structure CreditBalanceResponse where
  photoCredits : Int
  subscriptionTier : String
deriving DecidableEq

/-- CreditPackageResponse (src/types/api.ts). -/
structure CreditPackageResponse where
  packageId : String
  name : String
  credits : Int
  price : String
  sortOrder : Int
deriving DecidableEq

/-- CreditPurchaseResponse (src/types/api.ts lines 81-88). Its credited
amount field is named creditsAdded. -/
structure CreditPurchaseResponse where
  publicId : String
  creditsAdded : Int
  amount : Int
  status : String
  receiptData : String
  createdAt : String
deriving DecidableEq

/-- PhotoTransformResponse, reduced to the fields the transform hook
forwards. -/
structure PhotoTransformResponse where
  publicId : String
  status : String
  creditsUsed : Int
deriving DecidableEq

/-- Dynamic lookup of a numeric field on a CreditPurchaseResponse object, as
performed by the untyped access action.payload.NAME in the credit reducer.
A name that is not a numeric field of the object yields none (undefined; the
string-valued fields are never read by the reducer). -/
def CreditPurchaseResponse.numField (p : CreditPurchaseResponse) (name : String) : Option JNum :=
  if name = "creditsAdded" then some (JNum.val p.creditsAdded)
  else if name = "amount" then some (JNum.val p.amount)
  else none

/-! ## Error codes and handleApiError (src/services/api/index.ts 413-440) -/

/-- The API_ERROR_CODES constant object from the constants module. -/
structure ApiErrorCodes where
  AUTHENTICATION_REQUIRED : String
  INVALID_TOKEN : String
  ACCESS_DENIED : String
  VALIDATION_ERROR : String
  NO_FILE : String
  INVALID_IMAGE : String
  INSUFFICIENT_CREDITS : String
  TRANSFORMATION_ERROR : String
  PURCHASE_ERROR : String
  SUBSCRIPTION_ERROR : String
  RATE_LIMITED : String
  SERVER_ERROR : String
  SERVICE_UNAVAILABLE : String

/-- Values of API_ERROR_CODES as declared in the constants module. -/
def API_ERROR_CODES : ApiErrorCodes :=
  { AUTHENTICATION_REQUIRED := "AUTHENTICATION_REQUIRED"
    INVALID_TOKEN := "INVALID_TOKEN"
    ACCESS_DENIED := "ACCESS_DENIED"
    VALIDATION_ERROR := "VALIDATION_ERROR"
    NO_FILE := "NO_FILE"
    INVALID_IMAGE := "INVALID_IMAGE"
    INSUFFICIENT_CREDITS := "INSUFFICIENT_CREDITS"
    TRANSFORMATION_ERROR := "TRANSFORMATION_ERROR"
    PURCHASE_ERROR := "PURCHASE_ERROR"
    SUBSCRIPTION_ERROR := "SUBSCRIPTION_ERROR"
    RATE_LIMITED := "RATE_LIMITED"
    SERVER_ERROR := "SERVER_ERROR"
    SERVICE_UNAVAILABLE := "SERVICE_UNAVAILABLE" }

/-- Shape of the untyped error value handleApiError receives: an optional
server error body reachable as error.response.data.error, and an optional
top-level message. Truthiness of each is modelled by Option plus the
empty-string test. -/
structure ApiErrorInput where
  responseError : Option ErrorBody
  message : Option String
deriving DecidableEq

/-- The handleApiError utility (src/services/api/index.ts 413-440): switch
on the error code of a server error body, with a default of the carried
message or a generic fallback; without a server error body, the error
message or a network fallback. -/
def handleApiError (e : ApiErrorInput) : String :=
  match e.responseError with
  | some err =>
    match err.code with
    | some c =>
      if c = API_ERROR_CODES.INSUFFICIENT_CREDITS then
        "Insufficient credits. Please purchase more credits to continue."
      else if c = API_ERROR_CODES.INVALID_IMAGE then
        "Invalid image format. Please try with a different photo."
      else if c = API_ERROR_CODES.TRANSFORMATION_ERROR then
        "Photo transformation failed. Please try again."
      else if c = API_ERROR_CODES.AUTHENTICATION_REQUIRED then
        "Please sign in to continue."
      else if c = API_ERROR_CODES.INVALID_TOKEN then
        "Session expired. Please sign in again."
      else if c = API_ERROR_CODES.RATE_LIMITED then
        "Too many requests. Please try again later."
      else if c = API_ERROR_CODES.SERVICE_UNAVAILABLE then
        "Service temporarily unavailable. Please try again later."
      else jsOr err.message "Something went wrong. Please try again."
    | none => jsOr err.message "Something went wrong. Please try again."
  | none =>
    match e.message with
    | some m => if m = "" then "Network error. Please check your connection." else m
    | none => "Network error. Please check your connection."

/-- The seven error codes the claim lists as deterministically mapped. -/
def knownHandledCodes : List String :=
  [API_ERROR_CODES.INSUFFICIENT_CREDITS, API_ERROR_CODES.INVALID_IMAGE,
   API_ERROR_CODES.TRANSFORMATION_ERROR, API_ERROR_CODES.AUTHENTICATION_REQUIRED,
   API_ERROR_CODES.INVALID_TOKEN, API_ERROR_CODES.RATE_LIMITED,
   API_ERROR_CODES.SERVICE_UNAVAILABLE]

/-! ## Credit reducer and reconciliation (credit context module) -/

/-- CreditState of the credit context. photoCredits is a JavaScript number
since the reducer computes it with untyped arithmetic. -/
structure CreditState where
  photoCredits : JNum
  subscriptionTier : String
  availablePackages : List CreditPackageResponse
  purchaseHistory : List CreditPurchaseResponse
  isLoading : Bool
  error : Option String
deriving DecidableEq

/-- Actions of the credit reducer, each carrying the payload its dispatch
sites construct: SET_BALANCE is dispatched with an object holding
photoCredits and subscriptionTier, ADD_PURCHASE with a
CreditPurchaseResponse, and so on. -/
inductive CreditAction where
  | SET_BALANCE (photoCredits : JNum) (subscriptionTier : String)
  | SET_PACKAGES (packages : List CreditPackageResponse)
  | SET_PURCHASE_HISTORY (history : List CreditPurchaseResponse)
  | SET_LOADING (loading : Bool)
  | SET_ERROR (message : String)
  | CONSUME_CREDIT
  | ADD_PURCHASE (payload : CreditPurchaseResponse)
deriving DecidableEq

/-- The creditReducer of the credit context module. CONSUME_CREDIT computes
Math.max(0, photoCredits - 1); ADD_PURCHASE prepends the purchase and adds
the untyped field access payload.creditsAwarded (note the name: the payload
type declares creditsAdded) to photoCredits. -/
def creditReducer (state : CreditState) (action : CreditAction) : CreditState :=
  match action with
  | CreditAction.SET_BALANCE pc tier =>
    { state with photoCredits := pc, subscriptionTier := tier, isLoading := false, error := none }
  | CreditAction.SET_PACKAGES pkgs =>
    { state with availablePackages := pkgs, isLoading := false, error := none }
  | CreditAction.SET_PURCHASE_HISTORY h =>
    { state with purchaseHistory := h, isLoading := false, error := none }
  | CreditAction.SET_LOADING b =>
    { state with isLoading := b, error := none }
  | CreditAction.SET_ERROR m =>
    { state with isLoading := false, error := some m }
  | CreditAction.CONSUME_CREDIT =>
    { state with photoCredits := jsMax0 (jsSub1 state.photoCredits) }
  | CreditAction.ADD_PURCHASE p =>
    { state with purchaseHistory := p :: state.purchaseHistory,
                 photoCredits := jsAddOpt state.photoCredits (p.numField "creditsAwarded") }

/-- The initialState of the credit context. -/
def creditInitialState : CreditState :=
  { photoCredits := JNum.val 0, subscriptionTier := "free", availablePackages := [],
    purchaseHistory := [], isLoading := false, error := none }

/-- An action is an optimistic decrement or an authoritative resync carrying
a nonnegative server balance; these are the two mutations the never-negative
claim quantifies over. -/
def okAct : CreditAction → Bool
  | CreditAction.CONSUME_CREDIT => true
  | CreditAction.SET_BALANCE (JNum.val n) _ => decide (0 ≤ n)
  | _ => false

/-- The refreshBalance operation of the CreditProvider: dispatch
SET_LOADING true, call getCreditBalance, then dispatch SET_BALANCE with the
response fields, or SET_ERROR with handleApiError of the failure. The fetch
outcome is the environment. -/
def refreshBalance (state : CreditState) (fetch : Except ApiErrorInput CreditBalanceResponse) :
    CreditState :=
  let s1 := creditReducer state (CreditAction.SET_LOADING true)
  match fetch with
  | Except.ok b =>
    creditReducer s1 (CreditAction.SET_BALANCE (JNum.val b.photoCredits) b.subscriptionTier)
  | Except.error e =>
    creditReducer s1 (CreditAction.SET_ERROR (handleApiError e))

/-! ## The photo-transform hook (usePhotoTransform) -/

/-- The checkCredits helper of usePhotoTransform: creditState.photoCredits >= 1. -/
def checkCredits (state : CreditState) : Bool :=
  jsGe1 state.photoCredits

/-- Result of one transformPhoto call: the returned record plus the credit
state after the flow, whether the transform API was called, and how many
authoritative resyncs (refreshBalance calls) were issued. -/
structure TransformOutcome where
  success : Bool
  result : Option PhotoTransformResponse
  errMsg : Option String
  state : CreditState
  apiCalled : Bool
  resyncs : Nat
deriving DecidableEq

/-- The transformPhoto function of usePhotoTransform: reject without a
current image; reject locally when checkCredits fails; otherwise consume a
credit optimistically, call the transform API, and on success or failure
alike run one refreshBalance with the fetch outcome supplied by the
environment. -/
def transformPhoto (currentImage : Option String) (cs : CreditState)
    (transformResult : Except ApiErrorInput PhotoTransformResponse)
    (balanceFetch : Except ApiErrorInput CreditBalanceResponse) : TransformOutcome :=
  match currentImage with
  | none =>
    { success := false, result := none,
      errMsg := some "No image selected. Please take or select a photo first.",
      state := cs, apiCalled := false, resyncs := 0 }
  | some _ =>
    if checkCredits cs then
      let cs1 := creditReducer cs CreditAction.CONSUME_CREDIT
      match transformResult with
      | Except.ok r =>
        { success := true, result := some r, errMsg := none,
          state := refreshBalance cs1 balanceFetch, apiCalled := true, resyncs := 1 }
      | Except.error e =>
        { success := false, result := none, errMsg := some (handleApiError e),
          state := refreshBalance cs1 balanceFetch, apiCalled := true, resyncs := 1 }
    else
      { success := false, result := none,
        errMsg := some "Insufficient credits. Please purchase more credits to continue.",
        state := cs, apiCalled := false, resyncs := 0 }

/-! ## Auth session state (auth context module) -/

/-- AuthState of the auth context provider, with the internal availability
flag. The user payload is kept opaque. -/
structure AuthStateI where
  user : Option String
  sessionToken : Option String
  isLoading : Bool
  error : Option String
  isAvailable : Bool
deriving DecidableEq

/-- Actions of the auth reducer. -/
inductive AuthAction where
  | SIGN_IN_START
  | SIGN_IN_SUCCESS (user : String) (token : String)
  | SIGN_IN_ERROR (message : String)
  | SIGN_OUT
  | SET_LOADING (loading : Bool)
  | SET_AVAILABILITY (available : Bool)
deriving DecidableEq

/-- The authReducer of the auth context module. -/
def authReducer (state : AuthStateI) (action : AuthAction) : AuthStateI :=
  match action with
  | AuthAction.SIGN_IN_START =>
    { state with isLoading := true, error := none }
  | AuthAction.SIGN_IN_SUCCESS u t =>
    { state with user := some u, sessionToken := some t, isLoading := false, error := none }
  | AuthAction.SIGN_IN_ERROR m =>
    { state with user := none, sessionToken := none, isLoading := false, error := some m }
  | AuthAction.SIGN_OUT =>
    { state with user := none, sessionToken := none, isLoading := false, error := none }
  | AuthAction.SET_LOADING b =>
    { state with isLoading := b }
  | AuthAction.SET_AVAILABILITY b =>
    { state with isAvailable := b }

/-- The clearSessionToken method of ApiService: SecureStore.deleteItemAsync
may fail; the catch block only logs, so a failed deletion leaves the stored
value in place and the method never throws. deleteOk is the storage
environment. -/
def clearSessionToken (deleteOk : Bool) (store : Option String) : Option String :=
  if deleteOk then none else store

/-- The signOut method of ApiService: it only awaits clearSessionToken (no
remote call is made). -/
def apiSignOut (deleteOk : Bool) (store : Option String) : Option String :=
  clearSessionToken deleteOk store

/-- The signOut function of AuthProvider: await apiService.signOut and
dispatch SIGN_OUT; the catch block also dispatches SIGN_OUT, and since
apiSignOut never throws the try branch always runs. Returns the stored
token and the auth state after the call. -/
def providerSignOut (deleteOk : Bool) (store : Option String) (state : AuthStateI) :
    Option String × AuthStateI :=
  (apiSignOut deleteOk store, authReducer state AuthAction.SIGN_OUT)

/-! ## HTTP client core with interceptors (ApiService.setupInterceptors)

The client pipeline is modelled as a fuel-indexed interpreter: the request
interceptor attaches the stored token, the server (the environment) answers
as a function of the request and the attached token, and the response error
interceptor implements the 401 branch exactly as in the source: call
refreshToken (through this same client), re-read the store, resend the
original request on success, and on refresh failure clear the store and
rethrow the refresh error. The interpreter returns none when the fuel runs
out, so a result of none at every fuel is non-termination. -/

/-- Requests the embedded operations send: the refresh-token call, the
Apple sign-in call, and any other request, identified by name. -/
inductive Req where
  | refresh
  | signIn (cred : String)
  | other (name : String)
deriving DecidableEq

/-- A server answer: an HTTP status with a response envelope, or a network
failure with no response. -/
inductive ServerResp where
  | status (code : Nat) (env : Envelope)
  | netError
deriving DecidableEq

/-- Errors a call can reject with: an HTTP error carrying the request and
its response (AxiosError), a no-response network error, or a plain
Error(message) thrown by the typed operations. -/
inductive JsError where
  | http (req : Req) (code : Nat) (env : Envelope)
  | net (req : Req)
  | plain (msg : String)
deriving DecidableEq

/-- Client-side state threaded through a call: the token store and the log
of requests actually sent to the server, in order. -/
structure ClientSt where
  store : Option String
  log : List Req
deriving DecidableEq

/-- The environment: what the server answers to a request given the bearer
token attached to it. -/
def Serve : Type := Req → Option String → ServerResp

/-- Body of the refreshToken method applied to the outcome of its POST
/auth/refresh: on an envelope with success and data, store the returned
session token and return the data; otherwise throw
Error(error.message or "Token refresh failed"); a rejected POST rethrows. -/
def refreshTokenBody (r : Option (Except JsError Envelope × ClientSt)) :
    Option (Except JsError AuthResponse × ClientSt) :=
  match r with
  | none => none
  | some (Except.ok env, st) =>
    match env.success, env.data with
    | true, some auth => some (Except.ok auth, { st with store := some auth.sessionToken })
    | _, _ =>
      some (Except.error (JsError.plain (jsOr (env.error.bind ErrorBody.message)
        "Token refresh failed")), st)
  | some (Except.error e, st) => some (Except.error e, st)

/-- One client request through both interceptors. The request interceptor
reads the stored token and attaches it; the server answers; a 2xx response
resolves; a 401 response enters the refresh branch of the response
interceptor, which calls refreshToken through this same client (the source
has no guard excluding the refresh request and no retry flag), then on
refresh success re-reads the store and resends the original request, on a
missing token rejects with the original error, and on refresh failure runs
clearSessionToken (whose SecureStore deletion may fail with the error
swallowed, leaving the token stored; deleteOk is that storage environment)
and rethrows the refresh error; any other error status rejects with the
original error. -/
def clientRequest (serve : Serve) (deleteOk : Bool) :
    Nat → Req → ClientSt → Option (Except JsError Envelope × ClientSt)
  | 0, _, _ => none
  | Nat.succ fuel, req, st =>
    let sent : ClientSt := { store := st.store, log := st.log ++ [req] }
    match serve req st.store with
    | ServerResp.netError => some (Except.error (JsError.net req), sent)
    | ServerResp.status code env =>
      if 200 ≤ code ∧ code < 300 then some (Except.ok env, sent)
      else if code = 401 then
        match refreshTokenBody (clientRequest serve deleteOk fuel Req.refresh sent) with
        | none => none
        | some (Except.ok _, st2) =>
          match st2.store with
          | some _ => clientRequest serve deleteOk fuel req st2
          | none => some (Except.error (JsError.http req code env), st2)
        | some (Except.error e, st2) =>
          some (Except.error e, { st2 with store := clearSessionToken deleteOk st2.store })
      else some (Except.error (JsError.http req code env), sent)

/-- The refreshToken method of ApiService: POST /auth/refresh through the
client, then unwrap and persist per refreshTokenBody. -/
def refreshTokenCall (serve : Serve) (deleteOk : Bool) (fuel : Nat) (st : ClientSt) :
    Option (Except JsError AuthResponse × ClientSt) :=
  refreshTokenBody (clientRequest serve deleteOk fuel Req.refresh st)

/-- The signInWithApple method of ApiService: POST /auth/apple through the
client; on an envelope with success and data, store the returned session
token and return the data; otherwise throw
Error(error.message or "Sign-in failed"). -/
def signInWithApple (serve : Serve) (deleteOk : Bool) (fuel : Nat) (cred : String) (st : ClientSt) :
    Option (Except JsError AuthResponse × ClientSt) :=
  match clientRequest serve deleteOk fuel (Req.signIn cred) st with
  | none => none
  | some (Except.ok env, st1) =>
    match env.success, env.data with
    | true, some auth => some (Except.ok auth, { st1 with store := some auth.sessionToken })
    | _, _ =>
      some (Except.error (JsError.plain (jsOr (env.error.bind ErrorBody.message)
        "Sign-in failed")), st1)
  | some (Except.error e, st1) => some (Except.error e, st1)

/-! ## Concrete environments used by the scenario theorems -/

/-- An empty failure envelope (401 responses whose body the interceptor
never reads). -/
def env401 : Envelope := { success := false, data := none, error := none }

/-- A server that answers 401 to every request, in particular to the
refresh call itself: the scenario of the refresh-exclusion claim. -/
def serveRefresh401 : Serve := fun _ _ => ServerResp.status 401 env401

/-- A server on which the refresh call always succeeds with a fresh token
while every other request keeps answering 401 even with the fresh token:
the scenario of a second 401 after the retried request. -/
def serveRetry401 : Serve := fun req _ =>
  match req with
  | Req.refresh =>
    ServerResp.status 200
      { success := true, data := some { user := "u", sessionToken := "t2" }, error := none }
  | _ => ServerResp.status 401 env401

/-- A server on which the original request answers 401 and the refresh call
returns a 200 envelope with success false and message "refresh denied":
a failing refresh with no further recursion. -/
def serveRefreshDenied : Serve := fun req _ =>
  match req with
  | Req.refresh =>
    ServerResp.status 200
      { success := false, data := none,
        error := some { message := some "refresh denied", code := none } }
  | _ => ServerResp.status 401 env401

/-- A server on which sign-in and refresh both succeed, answering distinct
tokens. -/
def serveAuthOk : Serve := fun req _ =>
  match req with
  | Req.signIn _ =>
    ServerResp.status 200
      { success := true, data := some { user := "u1", sessionToken := "tokA" }, error := none }
  | Req.refresh =>
    ServerResp.status 200
      { success := true, data := some { user := "u1", sessionToken := "tokR" }, error := none }
  | Req.other _ =>
    ServerResp.status 200 { success := true, data := none, error := none }

/-! ## Theorems -/

/-- Helper: the jsOr fallback of a nonempty default is never empty. -/
theorem jsOr_ne_empty (m : Option String) (d : String) (hd : d ≠ "") : jsOr m d ≠ "" := by
  cases m with
  | none => simpa [jsOr] using hd
  | some s =>
    by_cases hs : s = ""
    · simpa [jsOr, hs] using hd
    · simp [jsOr, hs]

/-- Helper: when refreshTokenBody returns a successful auth result, the
resulting client state stores exactly the returned session token. -/
theorem refreshTokenBody_ok_store (r : Option (Except JsError Envelope × ClientSt))
    (auth : AuthResponse) (st1 : ClientSt)
    (h : refreshTokenBody r = some (Except.ok auth, st1)) :
    st1.store = some auth.sessionToken := by
  unfold refreshTokenBody at h
  split at h
  · exact Option.noConfusion h
  · split at h
    · simp only [Option.some.injEq, Prod.mk.injEq] at h
      obtain ⟨h1, h2⟩ := h
      obtain rfl := Except.ok.inj h1
      rw [← h2]
    · simp at h
  · simp at h

/-- Helper: when signInWithApple returns a successful auth result, the
resulting client state stores exactly the returned session token. -/
theorem signInWithApple_ok_store (serve : Serve) (deleteOk : Bool) (fuel : Nat) (cred : String)
    (st st1 : ClientSt) (auth : AuthResponse)
    (h : signInWithApple serve deleteOk fuel cred st = some (Except.ok auth, st1)) :
    st1.store = some auth.sessionToken := by
  unfold signInWithApple at h
  split at h
  · exact Option.noConfusion h
  · split at h
    · simp only [Option.some.injEq, Prod.mk.injEq] at h
      obtain ⟨h1, h2⟩ := h
      obtain rfl := Except.ok.inj h1
      rw [← h2]
    · simp at h
  · simp at h

/-- C3: for any starting balance that is a nonnegative integer and any
sequence of optimistic CONSUME_CREDIT decrements and authoritative
SET_BALANCE resyncs carrying a nonnegative server value, the photoCredits
field of the credit state stays a nonnegative integer: CONSUME_CREDIT
replaces it with max(0, photoCredits - 1) and SET_BALANCE overwrites it
with the server value. -/
theorem creditBalance_never_negative (cs : CreditState) (acts : List CreditAction)
    (h0 : jsNonneg cs.photoCredits = true) (hacts : ∀ a ∈ acts, okAct a = true) :
    jsNonneg ((acts.foldl creditReducer cs).photoCredits) = true := by
  induction acts generalizing cs with
  | nil => exact h0
  | cons a as ih =>
    have ha : okAct a = true := hacts a (List.mem_cons_self a as)
    have htail : ∀ x ∈ as, okAct x = true := fun x hx => hacts x (List.mem_cons_of_mem a hx)
    simp only [List.foldl_cons]
    refine ih (creditReducer cs a) ?_ htail
    cases a with
    | CONSUME_CREDIT =>
      cases hpc : cs.photoCredits with
      | val n =>
        have hn : (0 : Int) ≤ n := by simpa [jsNonneg, hpc] using h0
        simp [creditReducer, jsMax0, jsSub1, jsNonneg, hpc]
      | nan => rw [hpc] at h0; simp [jsNonneg] at h0
    | SET_BALANCE pc tier =>
      cases pc with
      | val n =>
        have hn : (0 : Int) ≤ n := by simpa [okAct] using ha
        simp [creditReducer, jsNonneg, hn]
      | nan => simp [okAct] at ha
    | SET_PACKAGES pkgs => simp [okAct] at ha
    | SET_PURCHASE_HISTORY h => simp [okAct] at ha
    | SET_LOADING b => simp [okAct] at ha
    | SET_ERROR m => simp [okAct] at ha
    | ADD_PURCHASE p => simp [okAct] at ha

/-- Witness for C3 at a concrete trace: three decrements from balance 0 and
a resync to 5 followed by a decrement keep the balance a nonnegative
integer. -/
theorem creditBalance_never_negative_witness :
    jsNonneg (([CreditAction.CONSUME_CREDIT, CreditAction.CONSUME_CREDIT,
      CreditAction.SET_BALANCE (JNum.val 5) "none", CreditAction.CONSUME_CREDIT,
      CreditAction.CONSUME_CREDIT].foldl creditReducer creditInitialState).photoCredits) = true :=
  creditBalance_never_negative creditInitialState _ (by decide) (by decide)

/-- C5: the code contradicts the claim: ADD_PURCHASE applied to a state
with the nonnegative integer balance 5 and a well-typed
CreditPurchaseResponse payload (creditsAdded = 10) yields photoCredits NaN,
because the reducer reads the nonexistent field creditsAwarded, not a
nonnegative integer (the expected result is 15). -/
theorem addPurchase_creditsAwarded_yields_nan :
    (creditReducer { creditInitialState with photoCredits := JNum.val 5 }
      (CreditAction.ADD_PURCHASE
        { publicId := "p1", creditsAdded := 10, amount := 1, status := "completed",
          receiptData := "rcpt", createdAt := "2026-01-01" })).photoCredits = JNum.nan ∧
    jsNonneg (creditReducer { creditInitialState with photoCredits := JNum.val 5 }
      (CreditAction.ADD_PURCHASE
        { publicId := "p1", creditsAdded := 10, amount := 1, status := "completed",
          receiptData := "rcpt", createdAt := "2026-01-01" })).photoCredits = false :=
  ⟨rfl, rfl⟩

/-- C4: for every transformPhoto attempt that passes the local checks (a
current image and a positive checkCredits), whatever the transform outcome
(success or any failure, timeouts included), exactly one authoritative
refreshBalance resync is issued, and when the resync fetch returns the
server balance the credit state photoCredits equals that server value,
overwriting the optimistic decrement. -/
theorem transformPhoto_exactly_one_resync (img : String) (cs : CreditState)
    (tOut : Except ApiErrorInput PhotoTransformResponse)
    (bOut : Except ApiErrorInput CreditBalanceResponse)
    (hc : checkCredits cs = true) :
    (transformPhoto (some img) cs tOut bOut).resyncs = 1 ∧
    (∀ b, bOut = Except.ok b →
      (transformPhoto (some img) cs tOut bOut).state.photoCredits = JNum.val b.photoCredits) := by
  constructor
  · cases tOut <;> simp [transformPhoto, hc]
  · intro b hb
    subst hb
    cases tOut <;> simp [transformPhoto, hc, refreshBalance, creditReducer]

/-- Witness for C4: from balance 3, a successful transform and a resync
returning 2 leave one resync issued and balance 2. -/
theorem transformPhoto_exactly_one_resync_witness :
    (transformPhoto (some "img") { creditInitialState with photoCredits := JNum.val 3 }
      (Except.ok { publicId := "t1", status := "completed", creditsUsed := 1 })
      (Except.ok { photoCredits := 2, subscriptionTier := "none" })).resyncs = 1 ∧
    (transformPhoto (some "img") { creditInitialState with photoCredits := JNum.val 3 }
      (Except.ok { publicId := "t1", status := "completed", creditsUsed := 1 })
      (Except.ok { photoCredits := 2, subscriptionTier := "none" })).state.photoCredits =
      JNum.val 2 := by
  have h := transformPhoto_exactly_one_resync "img"
    { creditInitialState with photoCredits := JNum.val 3 }
    (Except.ok { publicId := "t1", status := "completed", creditsUsed := 1 })
    (Except.ok { photoCredits := 2, subscriptionTier := "none" }) (by decide)
  exact ⟨h.1, h.2 { photoCredits := 2, subscriptionTier := "none" } rfl⟩

/-- C7 counterexample: at balance 0 with an image selected, transformPhoto
rejects locally (no API call, no resync), but the surfaced error is only
the fixed message string; the error channel of the hook is a plain string,
so no structured required/available counts are carried. -/
theorem transformPhoto_zero_balance_counterexample :
    transformPhoto (some "file:photo.jpg")
      { photoCredits := JNum.val 0, subscriptionTier := "none", availablePackages := [],
        purchaseHistory := [], isLoading := false, error := none }
      (Except.error { responseError := none, message := none })
      (Except.ok { photoCredits := 0, subscriptionTier := "none" }) =
    { success := false, result := none,
      errMsg := some "Insufficient credits. Please purchase more credits to continue.",
      state := { photoCredits := JNum.val 0, subscriptionTier := "none",
                 availablePackages := [], purchaseHistory := [], isLoading := false,
                 error := none },
      apiCalled := false, resyncs := 0 } := rfl

/-- C7 amended: with balance 0, transformPhoto is rejected locally before
any network call, surfacing the fixed insufficient-credits message string
(without structured counts), leaving the credit state untouched. -/
theorem transformPhoto_zero_balance_local_reject :
    ∀ (img tier : String) (pkgs : List CreditPackageResponse)
      (hist : List CreditPurchaseResponse) (ld : Bool) (err : Option String)
      (tOut : Except ApiErrorInput PhotoTransformResponse)
      (bOut : Except ApiErrorInput CreditBalanceResponse),
      transformPhoto (some img)
        { photoCredits := JNum.val 0, subscriptionTier := tier, availablePackages := pkgs,
          purchaseHistory := hist, isLoading := ld, error := err } tOut bOut =
      { success := false, result := none,
        errMsg := some "Insufficient credits. Please purchase more credits to continue.",
        state := { photoCredits := JNum.val 0, subscriptionTier := tier,
                   availablePackages := pkgs, purchaseHistory := hist, isLoading := ld,
                   error := err },
        apiCalled := false, resyncs := 0 } := by
  intros
  rfl

/-- C9 counterexample: when the storage deletion fails during sign-out, the
stored session token survives the sign-out call: the claim that the local
session token is cleared for every outcome is false. -/
theorem signOut_storage_failure_counterexample :
    (providerSignOut false (some "tok")
      { user := some "u", sessionToken := some "tok", isLoading := false,
        error := none, isAvailable := true }).1 = some "tok" ∧
    (providerSignOut false (some "tok")
      { user := some "u", sessionToken := some "tok", isLoading := false,
        error := none, isAvailable := true }).1 ≠ none :=
  ⟨rfl, by decide⟩

/-- C9 amended: sign-out always moves the auth state to SignedOut with user
and sessionToken both cleared, for every storage outcome; the stored token
equals the clearSessionToken result, which is cleared exactly when the
storage deletion succeeds (a deletion error is swallowed and leaves the
stored value). -/
theorem signOut_always_signedOut :
    ∀ (deleteOk : Bool) (store : Option String) (s : AuthStateI),
      (providerSignOut deleteOk store s).2.user = none ∧
      (providerSignOut deleteOk store s).2.sessionToken = none ∧
      (providerSignOut deleteOk store s).2.isLoading = false ∧
      (providerSignOut deleteOk store s).1 = clearSessionToken deleteOk store ∧
      (∀ st : Option String, clearSessionToken true st = none) := by
  intro deleteOk store s
  exact ⟨rfl, rfl, rfl, rfl, fun st => rfl⟩

/-- C10: handleApiError is total and never yields the empty string; each of
the seven handled error codes maps to its fixed message for every carried
message; any other code falls back to the carried message or the generic
fallback; a body without a code does the same; and without a server error
body the top-level message or the network fallback is returned. -/
theorem handleApiError_total :
    (∀ e : ApiErrorInput, handleApiError e ≠ "") ∧
    (∀ (m : Option String) (t : Option String),
      handleApiError { responseError := some { message := m, code := some "INSUFFICIENT_CREDITS" },
                       message := t } =
        "Insufficient credits. Please purchase more credits to continue.") ∧
    (∀ (m : Option String) (t : Option String),
      handleApiError { responseError := some { message := m, code := some "INVALID_IMAGE" },
                       message := t } =
        "Invalid image format. Please try with a different photo.") ∧
    (∀ (m : Option String) (t : Option String),
      handleApiError { responseError := some { message := m, code := some "TRANSFORMATION_ERROR" },
                       message := t } =
        "Photo transformation failed. Please try again.") ∧
    (∀ (m : Option String) (t : Option String),
      handleApiError { responseError := some { message := m, code := some "AUTHENTICATION_REQUIRED" },
                       message := t } =
        "Please sign in to continue.") ∧
    (∀ (m : Option String) (t : Option String),
      handleApiError { responseError := some { message := m, code := some "INVALID_TOKEN" },
                       message := t } =
        "Session expired. Please sign in again.") ∧
    (∀ (m : Option String) (t : Option String),
      handleApiError { responseError := some { message := m, code := some "RATE_LIMITED" },
                       message := t } =
        "Too many requests. Please try again later.") ∧
    (∀ (m : Option String) (t : Option String),
      handleApiError { responseError := some { message := m, code := some "SERVICE_UNAVAILABLE" },
                       message := t } =
        "Service temporarily unavailable. Please try again later.") ∧
    (∀ (c : String) (m : Option String) (t : Option String), c ∉ knownHandledCodes →
      handleApiError { responseError := some { message := m, code := some c }, message := t } =
        jsOr m "Something went wrong. Please try again.") ∧
    (∀ (m : Option String) (t : Option String),
      handleApiError { responseError := some { message := m, code := none }, message := t } =
        jsOr m "Something went wrong. Please try again.") ∧
    (∀ m : String,
      handleApiError { responseError := none, message := some m } =
        if m = "" then "Network error. Please check your connection." else m) ∧
    handleApiError { responseError := none, message := none } =
      "Network error. Please check your connection." := by
  refine ⟨?_, fun m t => rfl, fun m t => rfl, fun m t => rfl, fun m t => rfl, fun m t => rfl,
    fun m t => rfl, fun m t => rfl, ?_, fun m t => rfl, fun m => rfl, rfl⟩
  · intro e
    obtain ⟨re, msg⟩ := e
    cases re with
    | some err =>
      obtain ⟨m, c⟩ := err
      cases c with
      | some code =>
        simp only [handleApiError]
        split
        · decide
        · split
          · decide
          · split
            · decide
            · split
              · decide
              · split
                · decide
                · split
                  · decide
                  · split
                    · decide
                    · exact jsOr_ne_empty m _ (by decide)
      | none => exact jsOr_ne_empty m _ (by decide)
    | none =>
      cases msg with
      | some m =>
        simp only [handleApiError]
        split
        · decide
        · simp_all
      | none => decide
  · intro c m t hc
    simp only [knownHandledCodes, API_ERROR_CODES, List.mem_cons, List.mem_singleton,
      not_or] at hc
    obtain ⟨h1, h2, h3, h4, h5, h6, h7⟩ := hc
    simp [handleApiError, API_ERROR_CODES, h1, h2, h3, h4, h5, h6, h7]

/-- Witness for C10: an unknown code with a nonempty carried message yields
that message, and the empty-input case yields a nonempty string. -/
theorem handleApiError_total_witness :
    handleApiError { responseError := some { message := some "boom", code := some "WEIRD_CODE" },
                     message := none } = "boom" ∧
    handleApiError { responseError := none, message := none } ≠ "" := by
  obtain ⟨h1, _, _, _, _, _, _, _, h9, _, _, _⟩ := handleApiError_total
  exact ⟨h9 "WEIRD_CODE" (some "boom") none (by decide), h1 _⟩

/-- C8: for every server behaviour, storage environment, fuel, credential
and starting state, a successful signInWithApple or refreshToken call
leaves the token store holding exactly the session token of the returned
AuthResponse: both operations persist the server-returned token before
returning. -/
theorem signIn_refresh_persist_token (serve : Serve) (deleteOk : Bool) (fuel : Nat)
    (cred : String) (st st1 : ClientSt) (auth : AuthResponse) :
    (signInWithApple serve deleteOk fuel cred st = some (Except.ok auth, st1) →
      st1.store = some auth.sessionToken) ∧
    (refreshTokenCall serve deleteOk fuel st = some (Except.ok auth, st1) →
      st1.store = some auth.sessionToken) :=
  ⟨fun h => signInWithApple_ok_store serve deleteOk fuel cred st st1 auth h,
   fun h => refreshTokenBody_ok_store (clientRequest serve deleteOk fuel Req.refresh st)
     auth st1 h⟩

/-- Witness for C8 on a concrete successful sign-in and a concrete
successful refresh against serveAuthOk. -/
theorem signIn_refresh_persist_token_witness :
    (ClientSt.mk (some "tokA") [Req.signIn "cred"]).store =
      some (AuthResponse.mk "u1" "tokA").sessionToken ∧
    (ClientSt.mk (some "tokR") [Req.refresh]).store =
      some (AuthResponse.mk "u1" "tokR").sessionToken := by
  constructor
  · exact (signIn_refresh_persist_token serveAuthOk true 2 "cred" (ClientSt.mk none [])
      (ClientSt.mk (some "tokA") [Req.signIn "cred"]) (AuthResponse.mk "u1" "tokA")).1 (by rfl)
  · exact (signIn_refresh_persist_token serveAuthOk true 2 "cred" (ClientSt.mk none [])
      (ClientSt.mk (some "tokR") [Req.refresh]) (AuthResponse.mk "u1" "tokR")).2 (by rfl)

/-- C2: against a server that answers 401 to the refresh call itself, the
client never terminates at any fuel: the response interceptor re-enters the
refresh for the refresh request recursively, so the session is never
cleared and no result is ever produced, contradicting the claimed
exclusion of the refresh call from the 401 recursion. -/
theorem refresh_unauthorized_diverges :
    ∀ (deleteOk : Bool) (fuel : Nat) (st : ClientSt),
      clientRequest serveRefresh401 deleteOk fuel Req.refresh st = none ∧
      refreshTokenCall serveRefresh401 deleteOk fuel st = none := by
  intro deleteOk
  have aux : ∀ (fuel : Nat) (st : ClientSt),
      clientRequest serveRefresh401 deleteOk fuel Req.refresh st = none := by
    intro fuel
    induction fuel with
    | zero => intro st; rfl
    | succ f ih =>
      intro st
      simp only [clientRequest, serveRefresh401]
      rw [ih]
      rfl
  intro fuel st
  refine ⟨aux fuel st, ?_⟩
  unfold refreshTokenCall
  rw [aux fuel st]
  rfl

/-- C1: against a server on which the refresh call always succeeds while
the original request keeps answering 401 even with the fresh token, the
client never terminates at any fuel: after the first 401 the interceptor
refreshes and resends, the resent request's 401 triggers a further refresh
and resend without bound, so the second 401 is never propagated and a
second (and third, ...) refresh attempt is made, contradicting the claimed
single-refresh single-retry policy. -/
theorem interceptor_second_unauthorized_diverges :
    ∀ (deleteOk : Bool) (fuel : Nat) (name : String) (st : ClientSt),
      clientRequest serveRetry401 deleteOk fuel (Req.other name) st = none := by
  intro deleteOk fuel
  induction fuel with
  | zero => intro name st; rfl
  | succ f ih =>
    intro name st
    cases f with
    | zero => rfl
    | succ g =>
      simp only [clientRequest, serveRetry401]
      simp only [show ¬(200 ≤ 401 ∧ 401 < 300) by omega, if_false, if_pos rfl]
      simp only [refreshTokenBody]
      exact ih name _

/-- C6 counterexample: original request 401, refresh answered by a 200
envelope with success false and message "refresh denied", and a storage
deletion that fails (swallowed by clearSessionToken): the caller receives
the refresh error, not the original unauthorized error of the original
request, and the stored session token survives. The log shows the original
request was sent once and not retried. -/
theorem refresh_failure_original_error_counterexample :
    clientRequest serveRefreshDenied false 3 (Req.other "r") (ClientSt.mk (some "old") []) =
      some (Except.error (JsError.plain "refresh denied"),
        ClientSt.mk (some "old") [Req.other "r", Req.refresh]) ∧
    JsError.plain "refresh denied" ≠ JsError.http (Req.other "r") 401 env401 ∧
    (some "old" : Option String) ≠ none :=
  ⟨rfl, by decide, by decide⟩

/-- C6 amended: when a 401-triggered refresh fails, the interceptor runs
clearSessionToken on the stored session token, so the store afterwards is
cleared when the storage deletion succeeds and keeps the token when the
deletion fails (the error being swallowed), and it propagates the refresh
operation's error (not the original unauthorized error) to the caller,
without retrying the original request: at every storage environment, every
sufficient fuel and every starting state, the result is the refresh
failure error, the store equals clearSessionToken of the prior store, and
the log extends by exactly one send of the original request followed by
one refresh call. -/
theorem refresh_failure_clears_token_propagates_refresh_error :
    ∀ (deleteOk : Bool) (fuel : Nat) (st : ClientSt) (name : String),
      clientRequest serveRefreshDenied deleteOk (fuel + 2) (Req.other name) st =
        some (Except.error (JsError.plain "refresh denied"),
          ClientSt.mk (clearSessionToken deleteOk st.store)
            (st.log ++ [Req.other name, Req.refresh])) := by
  intro deleteOk fuel st name
  simp only [clientRequest, serveRefreshDenied]
  simp only [show ¬(200 ≤ 401 ∧ 401 < 300) by omega, if_false, if_pos rfl]
  simp only [show (200 ≤ 200 ∧ 200 < 300) by omega, if_true]
  simp only [refreshTokenBody, jsOr]
  simp
